import Mathlib

/-!
Verification of the configuration-loading core of Touchégg
(src/config/xml-config-loader.cpp) against its natural-language
specification. The C++ code is shallowly embedded: the pugixml tree is a
simple inductive type, the configuration store is a trace of calls, the
inotify watch loop is a function over a list of filesystem events, and
OS facilities (getenv, getpwuid, the filesystem) are explicit inputs.
-/

namespace Touchegg

/-! ### XML document model (the pugixml subset the loader uses)

An element node has a tag name, attributes, child elements and the text
content returned by pugixml child_value(). pugixml semantics embedded
below: a missing attribute reads as the empty string, and child(name)
of a node with no such child is the null node, whose attributes read as
empty strings and whose child range is empty. -/

inductive Xml where
  | node (tag : String) (attrs : List (String × String))
      (children : List Xml) (text : String)

def Xml.tag : Xml → String
  | .node t _ _ _ => t

def Xml.attrs : Xml → List (String × String)
  | .node _ a _ _ => a

def Xml.children : Xml → List Xml
  | .node _ _ c _ => c

def Xml.text : Xml → String
  | .node _ _ _ s => s

/-- Embeds node.attribute(name).value(): the empty string when absent. -/
def Xml.attr (n : Xml) (name : String) : String :=
  match n.attrs.find? (fun p => p.fst = name) with
  | some p => p.snd
  | none => ""

/-- Embeds node.children(name): the child elements with the given tag. -/
def Xml.childrenNamed (n : Xml) (name : String) : List Xml :=
  n.children.filter (fun c => c.tag = name)

/-- Embeds node.child(name): the first child with the given tag; none
stands for the pugixml null node. -/
def Xml.child (n : Xml) (name : String) : Option Xml :=
  n.children.find? (fun c => c.tag = name)

/-- Reading an attribute through a possibly-null node handle. -/
def optAttr (o : Option Xml) (name : String) : String :=
  match o with
  | some n => n.attr name
  | none => ""

/-- Child range of a possibly-null node handle: the null node has none. -/
def optChildren (o : Option Xml) : List Xml :=
  match o with
  | some n => n.children
  | none => []

/-! ### The configuration store as a trace of calls -/

/-- One call observed by the external Config store: clear(), or
saveGestureConfig(application, gestureType, fingers, direction,
actionType, actionSettings). -/
inductive StoreCall where
  | clear
  | save (application gestureType fingers direction actionType : String)
      (settings : List (String × String))
deriving DecidableEq

def StoreCall.isSave : StoreCall → Bool
  | .clear => false
  | .save _ _ _ _ _ _ => true

/-! ### The settings map (std::unordered_map<std::string, std::string>)

The map is modelled as an association list with unique keys; the
operator[] assignment replaces the value when the key is present and
inserts a fresh entry otherwise. -/

def mapInsert : List (String × String) → String → String → List (String × String)
  | [], k, v => [(k, v)]
  | p :: rest, k, v =>
      if p.fst = k then (k, v) :: rest else p :: mapInsert rest k v

/-- Keys of an association list, in order. -/
def keys (m : List (String × String)) : List String :=
  m.map Prod.fst

/-- Map lookup: the value stored at k, if any. -/
def lookupA : List (String × String) → String → Option String
  | [], _ => none
  | p :: rest, k => if p.fst = k then some p.snd else lookupA rest k

/-- Embeds the settings-accumulation loop over the children of the
action node: for each child element the tag name becomes the key and
the text content the value, later occurrences overwriting earlier
ones. -/
def actionSettingsOf (children : List Xml) : List (String × String) :=
  children.foldl (fun m c => mapInsert m c.tag c.text) []

/-! ### split (from utils/split.h, not part of the given sources) -/

/-- Accumulator-based character splitter used to model split. -/
def splitAux (sep : Char) : List Char → List Char → List String
  | [], acc => [String.mk acc.reverse]
  | c :: rest, acc =>
      if c = sep then String.mk acc.reverse :: splitAux sep rest []
      else splitAux sep rest (c :: acc)

/-- Modelled from the spec: the split helper of utils/split.h, whose
source is not among the given files. Splits a string on the separator
character into the list of substrings between separators. -/
def split (s : String) (sep : Char) : List String :=
  splitAux sep s.data []

/-! ### The parser (XmlConfigLoader::parseApplicationXmlNodes / parseXml) -/

/-- The saveGestureConfig call emitted for one application identifier
and one gesture node: all gesture/action data comes from the gesture
node alone. -/
def saveCallOf (application : String) (g : Xml) : StoreCall :=
  StoreCall.save application (g.attr "type") (g.attr "fingers")
    (g.attr "direction") (optAttr (g.child "action") "type")
    (actionSettingsOf (optChildren (g.child "action")))

/-- Embeds the inner gesture loop body: reads type/fingers/direction,
takes the first action child, accumulates its settings, and emits one
save call per application identifier. -/
def gestureCalls (applications : List String) (g : Xml) : List StoreCall :=
  applications.map (fun application => saveCallOf application g)

/-- Embeds the per-application-node loop body: splits the name
attribute on commas and processes each gesture child. -/
def applicationCalls (a : Xml) : List StoreCall :=
  (a.childrenNamed "gesture").flatMap
    (gestureCalls (split (a.attr "name") ','))

/-- Embeds XmlConfigLoader::parseApplicationXmlNodes. -/
def parseApplicationXmlNodes (rootNode : Xml) : List StoreCall :=
  (rootNode.childrenNamed "application").flatMap applicationCalls

/-- Errors the loader can raise (std::runtime_error with distinct
messages in the C++ code). -/
inductive ConfigError where
  | parseError
  | missingDefaultConfig
  | homeResolutionGetpwuid
  | homeResolutionPwDir
deriving DecidableEq

/-- Embeds XmlConfigLoader::parseXml. The load_file result is none when
the document is malformed or absent; on success the argument is the
document element. The result pairs the store calls made during the
invocation with the error raised, if any: a failed load raises before
any store call. -/
def parseXml (loadResult : Option Xml) : List StoreCall × Option ConfigError :=
  match loadResult with
  | none => ([], some ConfigError.parseError)
  | some rootNode => (parseApplicationXmlNodes rootNode, none)

/-! ### The watch loop (XmlConfigLoader::watchFile) -/

/-- Conversion of the ssize_t returned by read() into the std::size_t
variable length: reduction modulo 2^64, as on a 64-bit target. -/
def toSizeT (r : Int) : Nat :=
  (r % (2 : Int) ^ 64).toNat

/-- One iteration of the watch loop: the value read() returned and the
load result of the configuration file at that moment. -/
structure WatchEvent where
  readResult : Int
  fileContents : Option Xml

/-- Whether the watch loop is still blocking on read() afterwards, or
was terminated by an exception escaping the detached thread (which in
C++ calls std::terminate). -/
inductive LoopOutcome where
  | running
  | terminated
deriving DecidableEq

/-- Embeds the body of the detached watch thread, applied to a finite
prefix of the read() results it observes. Each iteration stores the
read() result into the unsigned length and reloads (clear, then
re-parse) when length > 0. parseApplicationXmlNodes cannot throw, but a
failed re-parse throws out of the lambda uncaught, so the loop ends
there and later events are never handled. Returns the per-event call
segments and whether the loop survived. -/
def watchLoop : List WatchEvent → List (List StoreCall) × LoopOutcome
  | [] => ([], LoopOutcome.running)
  | e :: rest =>
      if toSizeT e.readResult > 0 then
        match parseXml e.fileContents with
        | (calls, none) =>
            let r := watchLoop rest
            ((StoreCall.clear :: calls) :: r.fst, r.snd)
        | (calls, some _) =>
            ([StoreCall.clear :: calls], LoopOutcome.terminated)
      else
        let r := watchLoop rest
        ([] :: r.fst, r.snd)

/-- Outcomes of inotify_init() and inotify_add_watch(): negative values
signal failure. -/
structure WatchSetup where
  inotifyInitResult : Int
  addWatchResult : Int

/-- What watchFile does before detaching the thread: whether the
warning was printed and whether the watch thread was started. -/
structure WatchResult where
  warned : Bool
  armed : Bool
deriving DecidableEq

/-- Embeds XmlConfigLoader::watchFile up to the thread detach: a failed
inotify_init or inotify_add_watch prints the warning and returns
normally; otherwise the watch thread is armed. No path throws. -/
def watchFile (s : WatchSetup) : WatchResult :=
  if s.inotifyInitResult < 0 then ⟨true, false⟩
  else if s.addWatchResult < 0 then ⟨true, false⟩
  else ⟨false, true⟩

/-- The observable behaviour of load() and the watcher it arms: the
store calls of the initial parse, whether the watcher was armed, and
the call segments of the watch loop over the given events. -/
structure LoadTrace where
  initialCalls : List StoreCall
  watcherArmed : Bool
  reloadSegments : List (List StoreCall)
  loopOutcome : LoopOutcome
deriving DecidableEq

/-- Embeds XmlConfigLoader::load: parseXml on the resolved path first
(its error propagates to the caller, and then watchFile never runs),
then watchFile; events are handled only when the watcher was armed. -/
def load (initialDoc : Option Xml) (setup : WatchSetup)
    (events : List WatchEvent) : Except ConfigError LoadTrace :=
  match parseXml initialDoc with
  | (_, some e) => Except.error e
  | (calls, none) =>
      let w := watchFile setup
      if w.armed then
        let r := watchLoop events
        Except.ok ⟨calls, true, r.fst, r.snd⟩
      else
        Except.ok ⟨calls, false, [], LoopOutcome.running⟩

/-! ### Home resolution and bootstrap -/

/-- Embeds XmlConfigLoader::getHomePath. homeEnv is the getenv result
for HOME (none when unset; a set-but-empty variable is some with the
empty string). passwdEntry is the getpwuid record: none when absent,
some none when present with a null pw_dir, some (some d) otherwise. -/
def getHomePath (homeEnv : Option String)
    (passwdEntry : Option (Option String)) : Except ConfigError String :=
  match homeEnv with
  | some h => Except.ok h
  | none =>
      match passwdEntry with
      | none => Except.error ConfigError.homeResolutionGetpwuid
      | some none => Except.error ConfigError.homeResolutionPwDir
      | some (some d) => Except.ok d

/-- Follows the words of the spec for getHomePath, for comparison with
the embedded code: HOME is used only when present and non-empty, and
an unset or empty HOME falls back to the account database. -/
def getHomePathAsSpecified (homeEnv : Option String)
    (passwdEntry : Option (Option String)) : Except ConfigError String :=
  match homeEnv with
  | some h =>
      if h ≠ "" then Except.ok h
      else
        match passwdEntry with
        | none => Except.error ConfigError.homeResolutionGetpwuid
        | some none => Except.error ConfigError.homeResolutionPwDir
        | some (some d) => Except.ok d
  | none =>
      match passwdEntry with
      | none => Except.error ConfigError.homeResolutionGetpwuid
      | some none => Except.error ConfigError.homeResolutionPwDir
      | some (some d) => Except.ok d

/-- The parts of the filesystem state copyConfingIfNotPresent consults
and mutates. -/
structure FsState where
  userConfigFileExists : Bool
  userConfigDirExists : Bool
  usrDefaultExists : Bool
deriving DecidableEq

/-- Embeds XmlConfigLoader::copyConfingIfNotPresent: resolve home (its
error propagates), no-op when the user file exists, fail when the
system-wide default is missing, otherwise create the directory tree
(create_directories succeeds whether or not it existed) and copy the
default into place. An error leaves the state unchanged: both throws
happen before any filesystem mutation. -/
def copyConfingIfNotPresent (homeEnv : Option String)
    (passwdEntry : Option (Option String)) (fs : FsState) :
    Except ConfigError FsState :=
  match getHomePath homeEnv passwdEntry with
  | Except.error e => Except.error e
  | Except.ok _ =>
      if fs.userConfigFileExists then Except.ok fs
      else if !fs.usrDefaultExists then
        Except.error ConfigError.missingDefaultConfig
      else
        Except.ok { fs with userConfigDirExists := true,
                            userConfigFileExists := true }

/-! ### Helper lemmas about the settings map -/

lemma lookupA_mapInsert (m : List (String × String)) (k v k' : String) :
    lookupA (mapInsert m k v) k' = if k' = k then some v else lookupA m k' := by
  induction m with
  | nil =>
      by_cases h : k' = k
      · simp [mapInsert, lookupA, h]
      · have h2 : ¬k = k' := fun hh => h hh.symm
        simp [mapInsert, lookupA, h, h2]
  | cons p rest ih =>
      by_cases hp : p.fst = k
      · by_cases h : k' = k
        · simp [mapInsert, lookupA, hp, h]
        · have h3 : ¬k = k' := fun hh => h hh.symm
          simp [mapInsert, lookupA, hp, h, h3]
      · by_cases h1 : p.fst = k'
        · have h2 : ¬k' = k := fun hh => hp (h1.trans hh)
          simp [mapInsert, lookupA, hp, h1, h2]
        · simp [mapInsert, lookupA, hp, h1, ih]

lemma keys_mapInsert (m : List (String × String)) (k v : String) :
    keys (mapInsert m k v) = if k ∈ keys m then keys m else keys m ++ [k] := by
  induction m with
  | nil => simp [mapInsert, keys]
  | cons p rest ih =>
      by_cases hp : p.fst = k
      · simp [mapInsert, hp, keys]
      · have hk : ¬k = p.fst := fun h => hp h.symm
        by_cases hmem : k ∈ keys rest
        · simp only [keys] at ih hmem ⊢
          simp [mapInsert, hp, hk, hmem, ih]
        · simp only [keys] at ih hmem ⊢
          simp [mapInsert, hp, hk, hmem, ih]

lemma nodup_keys_mapInsert (m : List (String × String)) (k v : String)
    (h : (keys m).Nodup) : (keys (mapInsert m k v)).Nodup := by
  rw [keys_mapInsert]
  by_cases hmem : k ∈ keys m
  · simpa [hmem] using h
  · simpa [hmem, List.nodup_append] using h

lemma nodup_keys_settings_fold (cs : List Xml) :
    ∀ m : List (String × String), (keys m).Nodup →
      (keys (cs.foldl (fun acc c => mapInsert acc c.tag c.text) m)).Nodup := by
  induction cs with
  | nil => intro m hm; simpa using hm
  | cons c rest ih =>
      intro m hm
      exact ih (mapInsert m c.tag c.text) (nodup_keys_mapInsert m c.tag c.text hm)

lemma getLast?_filter_cons (p : Xml → Bool) (c : Xml) (rest : List Xml) :
    ((c :: rest).filter p).getLast? =
      ((rest.filter p).getLast?).or (if p c then some c else none) := by
  rcases hr : rest.filter p with _ | ⟨y, ys⟩
  · by_cases hc : p c <;> simp [List.filter_cons, hc, hr]
  · obtain ⟨z, hz⟩ := Option.isSome_iff_exists.mp
      ((List.getLast?_isSome (l := y :: ys)).mpr (by simp))
    by_cases hc : p c <;>
      simp [List.filter_cons, hc, hr, List.getLast?_cons_cons, hz]

lemma lookupA_settings_fold (cs : List Xml) :
    ∀ (m : List (String × String)) (k : String),
      lookupA (cs.foldl (fun acc c => mapInsert acc c.tag c.text) m) k =
        (((cs.filter (fun c => c.tag = k)).getLast?).map Xml.text).or
          (lookupA m k) := by
  induction cs with
  | nil => intro m k; simp
  | cons c rest ih =>
      intro m k
      rcases hr : (rest.filter (fun x => decide (x.tag = k))).getLast? with _ | x <;>
        rw [List.foldl_cons, ih, getLast?_filter_cons, lookupA_mapInsert, hr]
      · by_cases hc : c.tag = k
        · simp [hc]
        · have hc2 : ¬k = c.tag := fun hh => hc hh.symm
          simp [hc, hc2]
      · simp

/-! ### Helper lemmas about the parser and the watch loop -/

lemma isSave_of_mem_parse (rootNode : Xml) :
    ∀ c ∈ parseApplicationXmlNodes rootNode, c.isSave = true := by
  intro c hc
  simp [parseApplicationXmlNodes, applicationCalls, gestureCalls,
    List.mem_flatMap, List.mem_map] at hc
  obtain ⟨a, -, g, -, app, -, hc⟩ := hc
  rw [← hc]
  rfl

lemma sum_map_const {α : Type} (l : List α) (n : Nat) :
    (l.map (fun _ => n)).sum = n * l.length := by
  induction l with
  | nil => simp
  | cons a rest ih => simp [ih, Nat.mul_succ, Nat.add_comm, Nat.mul_comm]

lemma watchLoop_segment_shape (events : List WatchEvent) :
    ∀ seg ∈ (watchLoop events).fst,
      seg = [] ∨ (seg.head? = some StoreCall.clear ∧
        ∀ c ∈ seg.tail, c.isSave = true) := by
  induction events with
  | nil => intro seg hseg; simp [watchLoop] at hseg
  | cons e rest ih =>
      intro seg hseg
      by_cases hlen : toSizeT e.readResult > 0
      · rcases hdoc : e.fileContents with _ | doc
        · simp [watchLoop, hlen, hdoc, parseXml] at hseg
          right
          simp [hseg]
        · simp [watchLoop, hlen, hdoc, parseXml] at hseg
          rcases hseg with hseg | hseg
          · right
            constructor
            · simp [hseg]
            · intro c hc
              rw [hseg] at hc
              exact isSave_of_mem_parse doc c (by simpa using hc)
          · exact ih seg hseg
      · simp [watchLoop, hlen] at hseg
        rcases hseg with hseg | hseg
        · left; exact hseg
        · exact ih seg hseg

lemma applicationCalls_length (a : Xml) :
    (applicationCalls a).length =
      (split (a.attr "name") ',').length * (a.childrenNamed "gesture").length := by
  rw [applicationCalls, List.length_flatMap]
  simp only [Function.comp_def, gestureCalls, List.length_map]
  exact sum_map_const _ _

lemma load_some (doc : Xml) (setup : WatchSetup) (events : List WatchEvent) :
    load (some doc) setup events =
      if (watchFile setup).armed then
        Except.ok ⟨parseApplicationXmlNodes doc, true, (watchLoop events).fst,
          (watchLoop events).snd⟩
      else
        Except.ok ⟨parseApplicationXmlNodes doc, false, [], LoopOutcome.running⟩ := by
  by_cases h : (watchFile setup).armed <;> simp [load, parseXml, h]

lemma toSizeT_pos_of_ne (r : Int) (hlo : -(2 : Int) ^ 63 ≤ r)
    (hhi : r < (2 : Int) ^ 63) (hne : r ≠ 0) : 0 < toSizeT r := by
  have e63 : (2 : Int) ^ 63 = 9223372036854775808 := by norm_num
  have e64 : (2 : Int) ^ 64 = 18446744073709551616 := by norm_num
  rw [e63] at hlo hhi
  rw [toSizeT, e64]
  omega

/-! ### The claims -/

/-- C1: the claim says that after the watcher is armed, a filesystem
event whose triggered re-parse fails leaves the watch loop running and
awaiting further events. The code contradicts it: parseXml throws out
of the detached thread's lambda with no handler, so after the first
event (read() returning 1 on a file that then fails to load) the loop
is terminated — only the clear() call is observed and the second event
is never processed. -/
theorem C1_reparse_failure_terminates_loop :
    watchLoop [⟨1, none⟩, ⟨1, some (Xml.node "touchegg" [] [] "")⟩] =
      ([[StoreCall.clear]], LoopOutcome.terminated) := by decide

/-- C2: one parse pass makes exactly one saveGestureConfig call per
(application identifier, gesture node) pair: each application node's
name attribute is split on commas into k identifiers, each gesture
node under it yields the k save calls sharing the gesture/action data
taken from that gesture node alone, and the total number of calls is
the sum of k over all (application block, gesture block) pairs. -/
theorem C2_one_call_per_pair (rootNode : Xml) :
    parseApplicationXmlNodes rootNode =
      (rootNode.childrenNamed "application").flatMap (fun a =>
        (a.childrenNamed "gesture").flatMap (fun g =>
          (split (a.attr "name") ',').map
            (fun application => saveCallOf application g))) ∧
    (parseApplicationXmlNodes rootNode).length =
      ((rootNode.childrenNamed "application").map (fun a =>
        (split (a.attr "name") ',').length *
          (a.childrenNamed "gesture").length)).sum := by
  constructor
  · rfl
  · rw [parseApplicationXmlNodes, List.length_flatMap]
    simp only [Function.comp_def, applicationCalls_length]

/-- C3: on a malformed or absent document parseXml raises the parse
error and the invocation makes no store call at all: neither a
saveGestureConfig nor a clear call occurs before or after the error. -/
theorem C3_parse_failure_mutates_nothing :
    parseXml none = ([], some ConfigError.parseError) := rfl

/-- C4 counterexample: the claim says an empty HOME falls back to the
account database. The code only checks getenv for null: with HOME set
to the empty string and a passwd record whose home directory is
/root, the code returns the empty string while the claimed behaviour
returns /root. -/
theorem C4_counterexample_empty_home :
    getHomePath (some "") (some (some "/root")) = Except.ok "" ∧
    getHomePathAsSpecified (some "") (some (some "/root")) =
      Except.ok "/root" ∧
    (Except.ok "" : Except ConfigError String) ≠ Except.ok "/root" := by
  refine ⟨rfl, rfl, ?_⟩
  simp

/-- C4 amended: getHomePath returns the value of HOME whenever HOME is
set, even when it is empty; only when HOME is unset does it consult
the account database for the effective user, and it fails exactly when
HOME is unset and either no record exists or the record has no
home-directory field. -/
theorem C4_amended_home_env_wins (homeEnv : Option String)
    (passwdEntry : Option (Option String)) :
    (∀ h, homeEnv = some h → getHomePath homeEnv passwdEntry = Except.ok h) ∧
    (homeEnv = none → ∀ d, passwdEntry = some (some d) →
      getHomePath homeEnv passwdEntry = Except.ok d) ∧
    ((∃ e, getHomePath homeEnv passwdEntry = Except.error e) ↔
      (homeEnv = none ∧ (passwdEntry = none ∨ passwdEntry = some none))) := by
  refine ⟨?_, ?_, ?_⟩
  · intro h hh; subst hh; rfl
  · intro hh d hd; subst hh; subst hd; rfl
  · constructor
    · rintro ⟨e, he⟩
      rcases homeEnv with _ | h
      · rcases passwdEntry with _ | d
        · exact ⟨rfl, Or.inl rfl⟩
        · rcases d with _ | d
          · exact ⟨rfl, Or.inr rfl⟩
          · simp [getHomePath] at he
      · simp [getHomePath] at he
    · rintro ⟨h1, h2⟩
      subst h1
      rcases h2 with h2 | h2 <;> subst h2
      · exact ⟨ConfigError.homeResolutionGetpwuid, rfl⟩
      · exact ⟨ConfigError.homeResolutionPwDir, rfl⟩

/-- Witness for C4: with HOME set, getHomePath returns it even when no
passwd record exists. -/
theorem C4_amended_witness :
    getHomePath (some "/home/user") none = Except.ok "/home/user" :=
  (C4_amended_home_env_wins (some "/home/user") none).1 "/home/user" rfl

/-- C5: a failed initial parse propagates out of load before the
watcher is armed, so no filesystem event is handled then; and in every
reload segment the watch loop produces for an event, the clear call
comes strictly before any saveGestureConfig call (a skipped event
produces no calls at all). -/
theorem C5_clear_precedes_reload_saves (initialDoc : Option Xml)
    (setup : WatchSetup) (events : List WatchEvent) :
    (initialDoc = none →
      load initialDoc setup events = Except.error ConfigError.parseError) ∧
    (∀ doc, initialDoc = some doc →
      ∀ t, load initialDoc setup events = Except.ok t →
        t.initialCalls = parseApplicationXmlNodes doc ∧
        ∀ seg ∈ t.reloadSegments,
          seg = [] ∨ (seg.head? = some StoreCall.clear ∧
            ∀ c ∈ seg.tail, c.isSave = true)) := by
  constructor
  · intro h; subst h; rfl
  · intro doc hdoc t ht
    subst hdoc
    rw [load_some] at ht
    by_cases harm : (watchFile setup).armed
    · rw [if_pos harm] at ht
      injection ht with ht
      subst ht
      exact ⟨rfl, watchLoop_segment_shape events⟩
    · rw [if_neg harm] at ht
      injection ht with ht
      subst ht
      refine ⟨rfl, ?_⟩
      intro seg hseg
      simp at hseg


/-- Witness for C5: a missing document makes load fail with the parse
error, and the reload segment a trivial document produces starts with
the clear call and holds only save calls after it. -/
theorem C5_witness :
    load none ⟨-1, -1⟩ [] = Except.error ConfigError.parseError ∧
    (([StoreCall.clear] : List StoreCall) = [] ∨
      (([StoreCall.clear] : List StoreCall).head? = some StoreCall.clear ∧
        ∀ c ∈ ([StoreCall.clear] : List StoreCall).tail, c.isSave = true)) :=
  ⟨(C5_clear_precedes_reload_saves none ⟨-1, -1⟩ []).1 rfl,
   ((C5_clear_precedes_reload_saves (some (Xml.node "touchegg" [] [] ""))
        ⟨1, 1⟩ [⟨1, some (Xml.node "touchegg" [] [] "")⟩]).2
      (Xml.node "touchegg" [] [] "") rfl
      ⟨[], true, [[StoreCall.clear]], LoopOutcome.running⟩ rfl).2
    [StoreCall.clear] (by simp)⟩

/-- C6: the actionSettings mapping handed to saveGestureConfig for a
gesture node holds exactly one entry per distinct child tag under the
action node, and the entry's value is the text of the last occurrence
of that tag in document order, a repeated tag silently overwriting the
earlier value. -/
theorem C6_settings_last_occurrence (g : Xml) :
    (keys (actionSettingsOf (optChildren (g.child "action")))).Nodup ∧
    ∀ k, lookupA (actionSettingsOf (optChildren (g.child "action"))) k =
      (((optChildren (g.child "action")).filter
        (fun c => c.tag = k)).getLast?).map Xml.text := by
  constructor
  · exact nodup_keys_settings_fold _ [] (by simp [keys])
  · intro k
    rw [actionSettingsOf, lookupA_settings_fold]
    simp [lookupA]

/-- C7: when home resolution succeeds, copyConfingIfNotPresent is a
no-op if the user configuration file already exists; if it does not
and the system-wide default is also missing it fails with the
missing-default error leaving the filesystem unchanged; and if the
default is present it creates the user config directory (whether or
not it already existed) and copies the default into place. -/
theorem C7_bootstrap_cases (homeEnv : Option String)
    (passwdEntry : Option (Option String)) (fs : FsState)
    (hhome : ∃ hp, getHomePath homeEnv passwdEntry = Except.ok hp) :
    (fs.userConfigFileExists = true →
      copyConfingIfNotPresent homeEnv passwdEntry fs = Except.ok fs) ∧
    (fs.userConfigFileExists = false → fs.usrDefaultExists = false →
      copyConfingIfNotPresent homeEnv passwdEntry fs =
        Except.error ConfigError.missingDefaultConfig) ∧
    (fs.userConfigFileExists = false → fs.usrDefaultExists = true →
      copyConfingIfNotPresent homeEnv passwdEntry fs =
        Except.ok { fs with userConfigDirExists := true,
                            userConfigFileExists := true }) := by
  obtain ⟨hp, hh⟩ := hhome
  refine ⟨?_, ?_, ?_⟩
  · intro h1
    simp [copyConfingIfNotPresent, hh, h1]
  · intro h1 h2
    simp [copyConfingIfNotPresent, hh, h1, h2]
  · intro h1 h2
    simp [copyConfingIfNotPresent, hh, h1, h2]

/-- Witness for C7: with HOME set and the user file present, bootstrap
returns the filesystem unchanged. -/
theorem C7_witness :
    copyConfingIfNotPresent (some "/home/user") none ⟨true, false, false⟩ =
      Except.ok ⟨true, false, false⟩ :=
  (C7_bootstrap_cases (some "/home/user") none ⟨true, false, false⟩
    ⟨"/home/user", rfl⟩).1 rfl

/-- C8: a failed inotify_init or inotify_add_watch makes watchFile
print the warning and return normally without arming the watcher, and
load still succeeds with the initial parse results, live reload
disabled and no event ever handled; watch-setup failure never
propagates. -/
theorem C8_watch_setup_soft_failure (setup : WatchSetup) (doc : Xml)
    (events : List WatchEvent)
    (hfail : setup.inotifyInitResult < 0 ∨ setup.addWatchResult < 0) :
    watchFile setup = ⟨true, false⟩ ∧
    load (some doc) setup events =
      Except.ok ⟨parseApplicationXmlNodes doc, false, [],
        LoopOutcome.running⟩ := by
  have hw : watchFile setup = ⟨true, false⟩ := by
    unfold watchFile
    rcases hfail with h | h
    · rw [if_pos h]
    · by_cases h2 : setup.inotifyInitResult < 0
      · rw [if_pos h2]
      · rw [if_neg h2, if_pos h]
  refine ⟨hw, ?_⟩
  simp [load_some, hw]

/-- Witness for C8: with inotify_init returning -1, load still returns
the initial parse results with the watcher disarmed. -/
theorem C8_witness :
    watchFile ⟨-1, 0⟩ = ⟨true, false⟩ ∧
    load (some (Xml.node "touchegg" [] [] "")) ⟨-1, 0⟩ [⟨1, none⟩] =
      Except.ok ⟨parseApplicationXmlNodes (Xml.node "touchegg" [] [] ""),
        false, [], LoopOutcome.running⟩ :=
  C8_watch_setup_soft_failure ⟨-1, 0⟩ (Xml.node "touchegg" [] [] "")
    [⟨1, none⟩] (Or.inl (by norm_num))

/-- C9: the ssize_t returned by read() is stored into an unsigned
size_t before the positivity test, so within the ssize_t range every
negative (error) return makes the test succeed and triggers a clear
followed by a re-parse exactly as an event would, and a reload is
skipped only when read() returns exactly zero. -/
theorem C9_error_read_triggers_reload (r : Int) (doc : Xml)
    (hlo : -(2 : Int) ^ 63 ≤ r) (hhi : r < (2 : Int) ^ 63) :
    (r < 0 → 0 < toSizeT r) ∧
    (r ≠ 0 → watchLoop [⟨r, some doc⟩] =
      ([StoreCall.clear :: parseApplicationXmlNodes doc],
        LoopOutcome.running)) ∧
    (r = 0 → watchLoop [⟨r, some doc⟩] = ([[]], LoopOutcome.running)) := by
  refine ⟨?_, ?_, ?_⟩
  · intro hneg
    exact toSizeT_pos_of_ne r hlo hhi (by omega)
  · intro hne
    have hpos : 0 < toSizeT r := toSizeT_pos_of_ne r hlo hhi hne
    simp [watchLoop, hpos, parseXml]
  · intro h0
    subst h0
    have hz : toSizeT 0 = 0 := by simp [toSizeT]
    simp [watchLoop, hz, parseXml]

/-- Witness for C9: a read() returning -1 converts to a positive
length and triggers a full reload of a concrete document. -/
theorem C9_witness :
    0 < toSizeT (-1) ∧
    watchLoop [⟨-1, some (Xml.node "touchegg" [] [] "")⟩] =
      ([StoreCall.clear ::
          parseApplicationXmlNodes (Xml.node "touchegg" [] [] "")],
        LoopOutcome.running) :=
  ⟨(C9_error_read_triggers_reload (-1) (Xml.node "touchegg" [] [] "")
      (by norm_num) (by norm_num)).1 (by norm_num),
   (C9_error_read_triggers_reload (-1) (Xml.node "touchegg" [] [] "")
      (by norm_num) (by norm_num)).2.1 (by norm_num)⟩

/-- C10: a gesture node with no action child is neither an error nor
skipped: it still yields one save call per application identifier,
with the empty string as actionType and an empty settings mapping. -/
theorem C10_missing_action_node (g : Xml) (apps : List String)
    (h : g.child "action" = none) :
    gestureCalls apps g = apps.map (fun application =>
      StoreCall.save application (g.attr "type") (g.attr "fingers")
        (g.attr "direction") "" []) ∧
    (gestureCalls apps g).length = apps.length := by
  constructor
  · simp [gestureCalls, saveCallOf, h, optAttr, optChildren, actionSettingsOf]
  · simp [gestureCalls]

/-- Witness for C10: a gesture node without an action child produces
exactly one save call with empty actionType and settings. -/
theorem C10_witness :
    gestureCalls ["all"] (Xml.node "gesture" [("type", "SWIPE")] [] "") =
      [StoreCall.save "all" "SWIPE" "" "" "" []] ∧
    (gestureCalls ["all"] (Xml.node "gesture" [("type", "SWIPE")] [] "")).length = 1 := by
  have h := C10_missing_action_node
    (Xml.node "gesture" [("type", "SWIPE")] [] "") ["all"] rfl
  exact ⟨h.1.trans rfl, h.2.trans rfl⟩

end Touchegg
